import Mathlib

/-!
Verification of the CrowdTangle collection helpers (`code/ct_helpers.py`)
and the Facebook post data model (`code/fb_model.py`).

The collector loop `download_posts` is embedded as a state machine driven by
an explicit environment: a list of fetch outcomes, one per attempted HTTP
call.  Each outcome is either an exception raised anywhere inside the `try`
block (transport failure, unparseable body, missing `result`/`posts`/`status`
keys) or a well-formed parsed response.  The loop consumes one outcome per
iteration; running out of outcomes while the loop still wants to continue is
reported as `LoopResult.outOfFuel`, an exception escaping the loop body as
`LoopResult.raised`, and a normal return as `LoopResult.finished` carrying
the final values of all the loop's local variables.

The Python data model (`fb_model.py`) works on parsed JSON; JSON values are
embedded as the inductive type `PyVal`, with dictionaries as association
lists.  Functions that can raise return `Except String`, the string being
the Python exception class name.
-/

/-- One post record as seen by `download_posts`.  The loop itself only ever
reads the `date` key of a record (lines 258-259, for the progress report),
so a record is modelled as its optional `date` field plus an abstract
payload identifier `pid` that keeps distinct records distinguishable. -/
structure Post where
  pid : Nat
  date : Option String
  deriving DecidableEq, Repr

/-- The `pagination` object of a response.  `nextPage` is `some url` when the
`nextPage` key is present (the url may be the empty string) and `none` when
the key is absent. -/
structure Pagination where
  nextPage : Option String
  deriving DecidableEq, Repr

/-- The `result` object of a response: the `posts` array and the optional
`pagination` object. -/
structure CtResult where
  posts : List Post
  pagination : Option Pagination
  deriving DecidableEq, Repr

/-- A parsed response body as consumed by `download_posts`: the top-level
`status` field and the `result` object.  A body whose shape deviates from
this (missing `result`, `posts` or `status` keys, non-dict `pagination`)
makes the `try` block raise and is represented by `FetchOutcome.err`. -/
structure Results where
  status : Nat
  result : CtResult
  deriving DecidableEq, Repr

/-- The outcome of one attempted call inside the `try` block of
`download_posts`: `err` when any exception is raised (network failure,
non-JSON body, unexpected shape), `ok` when a well-formed body is parsed. -/
inductive FetchOutcome where
  | err : FetchOutcome
  | ok : Results → FetchOutcome
  deriving DecidableEq, Repr

/-- Extraction of the next-page locator, mirroring lines 211-217:
`results["result"]["pagination"]["nextPage"]` when both the `pagination`
and the `nextPage` keys are present, absent otherwise. -/
def locatorOf (results : Results) : Option String :=
  match results.result.pagination with
  | some pg => pg.nextPage
  | none => none

/-- The local variables of `download_posts` that live across iterations. -/
structure DLState where
  total_posts : Nat
  query_count : Nat
  retry_count : Nat
  data : List Post
  first_call : Bool
  more_data : Bool
  next_page_url : Option String
  deriving DecidableEq, Repr

/-- `max_retries = 10`, line 172. -/
def max_retries : Nat := 10

/-- The result of one iteration of the `while` body: fall through or
`continue` back to the loop condition, `break` out of the loop, or raise an
exception out of the function (possible at lines 258-259 when a returned
record has no `date` key). -/
inductive StepRes where
  | cont : DLState → StepRes
  | brk : DLState → StepRes
  | raise : DLState → StepRes
  deriving DecidableEq, Repr

/-- The loop state carried by a `StepRes`, whichever way the iteration
ended. -/
def StepRes.state : StepRes → DLState
  | .cont st => st
  | .brk st => st
  | .raise st => st

/-- Whether the accesses `posts[0]["date"]` and `posts[-1]["date"]`
(lines 258-259) succeed; vacuously true for the empty list, on which those
lines are never reached. -/
def hasDates (posts : List Post) : Bool :=
  match posts.head?, posts.getLast? with
  | some p0, some pl => p0.date.isSome && pl.date.isSome
  | _, _ => true

/-- One iteration of the `while` body of `download_posts` (lines 179-276),
given the outcome `o` of this iteration's fetch.

* `o = err`: the `except` branch, lines 224-237.  No state assigned inside
  the `try` block survives (all possible raise points precede the first
  assignment to loop state), so only `retry_count` changes; the loop breaks
  when `max_retries - retry_count <= 0` after the increment.
* `o = ok results`: lines 199-276.  `first_call` flips on a status-200
  response with a non-empty `posts` array (lines 205-209); `next_page_url`
  is reset and re-extracted and `more_data` set accordingly (lines 211-220,
  written here as the composition of the two source assignments: `True`
  when the `nextPage` key is present, then forced to `False` when
  `next_page_url` ended up `None`); an empty `posts` array goes through the
  retry branch (lines 240-252), a non-empty one resets `retry_count`,
  reads the two `date` fields (raising if absent), appends the records and
  increments `query_count`, breaking once `query_count >= max_queries`
  (lines 254-276). -/
def step (o : FetchOutcome) (st : DLState) (max_queries : Nat) : StepRes :=
  match o with
  | .err =>
    let rc := st.retry_count + 1
    let st1 := { st with retry_count := rc }
    if max_retries - rc ≤ 0 then .brk st1 else .cont st1
  | .ok results =>
    let posts := results.result.posts
    let num_posts := posts.length
    let fc :=
      if st.first_call ∧ results.status = 200 ∧ num_posts ≠ 0 then false else st.first_call
    let url := locatorOf results
    let md1 := match url with
      | some _ => true
      | none => st.more_data
    let md := if url = none then false else md1
    let st1 := { st with first_call := fc, next_page_url := url, more_data := md }
    if num_posts = 0 then
      let rc := st1.retry_count + 1
      let st2 := { st1 with retry_count := rc }
      if max_retries - rc ≤ 0 then .brk st2 else .cont st2
    else
      let st2 := { st1 with retry_count := 0 }
      if hasDates posts then
        let st3 := { st2 with
          data := st2.data ++ posts,
          total_posts := st2.total_posts + num_posts,
          query_count := st2.query_count + 1 }
        if max_queries ≤ st3.query_count then .brk st3 else .cont st3
      else
        .raise st2

/-- How a run of `download_posts` ends: a normal return carrying the final
loop state (`finished`), an exception escaping the loop (`raised`), or the
environment running out of scripted fetch outcomes while the loop condition
still holds (`outOfFuel`). -/
inductive LoopResult where
  | finished : DLState → LoopResult
  | raised : DLState → LoopResult
  | outOfFuel : DLState → LoopResult
  deriving DecidableEq, Repr

/-- The `while first_call or more_data` loop of `download_posts`
(lines 178-276), consuming one scripted fetch outcome per iteration. -/
def download_posts_loop (max_queries : Nat) : List FetchOutcome → DLState → LoopResult
  | [], st =>
    if st.first_call || st.more_data then .outOfFuel st else .finished st
  | o :: rest, st =>
    if st.first_call || st.more_data then
      match step o st max_queries with
      | .cont st1 => download_posts_loop max_queries rest st1
      | .brk st1 => .finished st1
      | .raise st1 => .raised st1
    else .finished st

/-- The initial values of the loop's local variables, lines 169-177.
`next_page_url` is unbound in the source until first assigned; it is only
ever read after a successful first call, which assigns it, so `none` is a
faithful initial value. -/
def initState : DLState :=
  { total_posts := 0, query_count := 0, retry_count := 0, data := [],
    first_call := true, more_data := false, next_page_url := none }

/-- `download_posts(crowdtangle_list_id, start, end, max_queries, api_token)`
(lines 167-279).  The identifiers, dates and token only shape the HTTP
requests, which the environment `env` abstracts, so they are not
parameters of the embedding. -/
def download_posts (env : List FetchOutcome) (max_queries : Nat) : LoopResult :=
  download_posts_loop max_queries env initState

/-- A failed-or-empty attempt: an exception inside the `try` block or a
well-formed response whose `posts` array is empty. -/
def isBad : FetchOutcome → Bool
  | .err => true
  | .ok results => results.result.posts.isEmpty

/-- Whether no next-page locator can be extracted from a response (the
`pagination` or `nextPage` key is absent). -/
def noLocator (results : Results) : Bool :=
  (locatorOf results).isNone

/-! ## The HTTP layer of `ct_get_posts` and the follow-up fetch

An HTTP exchange is abstracted as `Option HttpResponse`: `none` when
`requests.get` itself raises (network failure), `some r` when a response
with status code `r.status_code` arrives.  `r.body` is `some results` when
the body parses as JSON (of the consumed shape), `none` when `r.json()`
raises. -/

/-- An HTTP response as seen by the fetching code. -/
structure HttpResponse where
  status_code : Nat
  body : Option Results
  deriving DecidableEq, Repr

/-- What a page-fetch operation does: raise, or return a parsed body. -/
inductive FetchResult where
  | raises : FetchResult
  | returns : Results → FetchResult
  deriving DecidableEq, Repr

/-- `requests.Response.raise_for_status` raises exactly for status codes in
[400, 600). -/
def raise_for_status_raises (code : Nat) : Bool :=
  if 400 ≤ code ∧ code < 600 then true else false

/-- The response handling of `ct_get_posts`, lines 159-164: on a non-200
status the error details are printed, the f-string evaluating
`r.raise_for_status()`, which raises for 4xx/5xx; in every non-raising case
the parsed body `r.json()` is returned. -/
def ct_get_posts (resp : Option HttpResponse) : FetchResult :=
  match resp with
  | none => .raises
  | some r =>
    if r.status_code ≠ 200 then
      if raise_for_status_raises r.status_code then .raises
      else
        match r.body with
        | some j => .returns j
        | none => .raises
    else
      match r.body with
      | some j => .returns j
      | none => .raises

/-- The follow-up fetch of the stored next-page URL inside `download_posts`,
lines 196-197: `requests.get(next_page_url)` followed by `response.json()`,
with no status check of any kind. -/
def next_page_fetch (resp : Option HttpResponse) : FetchResult :=
  match resp with
  | none => .raises
  | some r =>
    match r.body with
    | some j => .returns j
    | none => .raises

/-! ## Embedded Python values (`fb_model.py`) -/

/-- A parsed JSON / Python value.  Dictionaries are association lists with
string keys (the only key type occurring in this code base). -/
inductive PyVal where
  | dict : List (String × PyVal) → PyVal
  | list : List PyVal → PyVal
  | str : String → PyVal
  | int : Int → PyVal
  | none : PyVal

/-- Dictionary lookup, first matching key. -/
def dictGet (k : String) : List (String × PyVal) → Option PyVal
  | [] => Option.none
  | (k1, v) :: rest => if k1 = k then some v else dictGet k rest

/-- `isinstance(v, dict)`. -/
def isDict : PyVal → Bool
  | .dict _ => true
  | _ => false

/-- The `for k in key_list` loop of `get_dict_val` (lines 95-107 of
`fb_model.py`): descend one key at a time, returning `None` as soon as the
current value is not a dict or the key is absent. -/
def gdv_loop : PyVal → List String → PyVal
  | retval, [] => retval
  | retval, k :: ks =>
    match retval with
    | .dict es =>
      match dictGet k es with
      | some v => gdv_loop v ks
      | Option.none => PyVal.none
    | _ => PyVal.none

/-- `get_dict_val(dictionary, key_list)` (lines 38-107 of `fb_model.py`):
raises `TypeError` when `dictionary` is not a dict, otherwise runs the
traversal loop.  (The companion guard on `key_list` is vacuous here since
the embedding types the key path as a list.) -/
def get_dict_val (dictionary : PyVal) (key_list : List String) : Except String PyVal :=
  if isDict dictionary then .ok (gdv_loop dictionary key_list)
  else .error "TypeError"

/-- `PostBase.get_value` (lines 134-152 of `fb_model.py`): delegates to
`get_dict_val` on the bound post object. -/
def get_value (post_object : PyVal) (key_list : List String) : Except String PyVal :=
  get_dict_val post_object key_list

mutual

/-- Python `repr` of a value, used by `str` on containers.  String escaping
inside reprs is simplified to plain quoting; no claim depends on it. -/
def pyRepr : PyVal → String
  | .dict es => "\x7b" ++ pyReprEntries es ++ "\x7d"
  | .list l => "[" ++ pyReprList l ++ "]"
  | .str s => "\x27" ++ s ++ "\x27"
  | .int n => toString n
  | .none => "None"

/-- Comma-separated reprs of list elements. -/
def pyReprList : List PyVal → String
  | [] => ""
  | [v] => pyRepr v
  | v :: rest => pyRepr v ++ ", " ++ pyReprList rest

/-- Comma-separated reprs of dict entries. -/
def pyReprEntries : List (String × PyVal) → String
  | [] => ""
  | [(k, v)] => "\x27" ++ k ++ "\x27: " ++ pyRepr v
  | (k, v) :: rest => "\x27" ++ k ++ "\x27: " ++ pyRepr v ++ ", " ++ pyReprEntries rest

end

/-- Python `str`. -/
def pyStr : PyVal → String
  | .str s => s
  | v => pyRepr v

/-- Python iteration `for item in v`: lists yield their elements, dicts
their keys, strings their characters; other values raise `TypeError`. -/
def pyIter : PyVal → Except String (List PyVal)
  | .list l => .ok l
  | .dict es => .ok (es.map fun kv => PyVal.str kv.1)
  | .str s => .ok (s.toList.map fun c => PyVal.str c.toString)
  | _ => .error "TypeError"

/-- Python subscript `v[k]` with a string key: succeeds only on a dict
containing the key (`KeyError` when the key is absent, `TypeError` on
non-dict values). -/
def pyGetItemStr (v : PyVal) (k : String) : Except String PyVal :=
  match v with
  | .dict es =>
    match dictGet k es with
    | some x => .ok x
    | Option.none => .error "KeyError"
  | _ => .error "TypeError"

/-- `FbIgPost.get_post_ID` (lines 224-232): `None` when the `id` key is
absent, otherwise `str(post_id)`. -/
def get_post_ID (post_object : PyVal) : Except String (Option String) :=
  match get_value post_object ["id"] with
  | .error e => .error e
  | .ok PyVal.none => .ok Option.none
  | .ok v => .ok (some (pyStr v))

/-- `FbIgPost.get_user_ID` (lines 284-292): `None` when the
`account.id` path is absent, otherwise `str(user_id)`. -/
def get_user_ID (post_object : PyVal) : Except String (Option String) :=
  match get_value post_object ["account", "id"] with
  | .error e => .error e
  | .ok PyVal.none => .ok Option.none
  | .ok v => .ok (some (pyStr v))

/-- The field-collection loop of `FbIgPost.get_text` (lines 312-318):
for each text field in order, look it up, skip it when absent, apply the
cleaning transform when requested, and record it.  The cleaning transform
(`clean_text`, a thin wrapper over the external `cleantext` library, which
the repository does not contain) is taken as the explicit argument
`cleaner`. -/
def collectTextFields (cleaner : PyVal → Except String PyVal) (post_object : PyVal)
    (clean : Bool) : List String → Except String (List (String × PyVal))
  | [] => .ok []
  | f :: fs =>
    match get_value post_object [f] with
    | .error e => .error e
    | .ok PyVal.none => collectTextFields cleaner post_object clean fs
    | .ok v =>
      match (if clean then cleaner v else .ok v) with
      | .error e => .error e
      | .ok v1 =>
        match collectTextFields cleaner post_object clean fs with
        | .error e => .error e
        | .ok rest => .ok ((f, v1) :: rest)

/-- `" ".join(text_obj.values())`: every value must be a string, else
`TypeError`. -/
def joinValues : List (String × PyVal) → Except String (List String)
  | [] => .ok []
  | (_, PyVal.str s) :: rest =>
    match joinValues rest with
    | .error e => .error e
    | .ok ss => .ok (s :: ss)
  | _ => .error "TypeError"

/-- `FbIgPost.get_text(clean, struct)` (lines 294-322): collect the four
text fields, then either return them as a dict (`struct = true`) or as the
space-joined concatenation of their values. -/
def get_text (cleaner : PyVal → Except String PyVal) (post_object : PyVal)
    (clean : Bool) (struct : Bool) : Except String PyVal :=
  match collectTextFields cleaner post_object clean
      ["message", "title", "description", "imageText"] with
  | .error e => .error e
  | .ok text_obj =>
    if struct then .ok (PyVal.dict text_obj)
    else
      match joinValues text_obj with
      | .error e => .error e
      | .ok strs => .ok (PyVal.str (String.intercalate " " strs))

/-- The list comprehension of `get_URLs`:
`[item["expanded"] for item in expandedUrls]`. -/
def mapExpanded : List PyVal → Except String (List PyVal)
  | [] => .ok []
  | item :: rest =>
    match pyGetItemStr item "expanded" with
    | .error e => .error e
    | .ok u =>
      match mapExpanded rest with
      | .error e => .error e
      | .ok us => .ok (u :: us)

/-- `FbIgPost.get_URLs` (lines 335-346): `[]` when `expandedLinks` is
absent, otherwise the `expanded` value of each item (raising when an item
is not a dict containing that key). -/
def get_URLs (post_object : PyVal) : Except String (List PyVal) :=
  match get_value post_object ["expandedLinks"] with
  | .error e => .error e
  | .ok PyVal.none => .ok []
  | .ok v =>
    match pyIter v with
    | .error e => .error e
    | .ok items => mapExpanded items

/-- One `media_obj` of `get_media` (lines 362-366): `item["url"]` and
`item["type"]` are read unconditionally (raising when absent or when the
item is not a dict), `item["full"]` only when present. -/
def buildMediaObj (item : PyVal) : Except String PyVal :=
  match pyGetItemStr item "url" with
  | .error e => .error e
  | .ok u =>
    match pyGetItemStr item "type" with
    | .error e => .error e
    | .ok t =>
      match item with
      | PyVal.dict es =>
        .ok (PyVal.dict ([("media_url", u), ("media_type", t)] ++
          (match dictGet "full" es with
           | some f => [("media_full_url", f)]
           | Option.none => [])))
      | _ => .error "TypeError"

/-- The `for item in media_list` loop of `get_media`. -/
def mapMedia : List PyVal → Except String (List PyVal)
  | [] => .ok []
  | item :: rest =>
    match buildMediaObj item with
    | .error e => .error e
    | .ok m =>
      match mapMedia rest with
      | .error e => .error e
      | .ok ms => .ok (m :: ms)

/-- `FbIgPost.get_media` (lines 348-367): `[]` when the `media` key is
absent, otherwise one media object per item. -/
def get_media (post_object : PyVal) : Except String (List PyVal) :=
  match get_value post_object ["media"] with
  | .error e => .error e
  | .ok PyVal.none => .ok []
  | .ok v =>
    match pyIter v with
    | .error e => .error e
    | .ok items => mapMedia items

/-! ## The transmitted query parameters of `ct_get_posts` -/

/-- Python truthiness of an optional string argument (`if start_time:`
transmits only non-`None`, non-empty strings). -/
def truthyStr : Option String → Bool
  | Option.none => false
  | some s => !s.isEmpty

/-- An optional string argument as the parameter value put into the dict. -/
def pyOfOptStr : Option String → PyVal
  | some s => PyVal.str s
  | Option.none => PyVal.none

/-- The `PARAMS` dict built by `ct_get_posts` (lines 136-156 of
`ct_helpers.py`) in insertion order: `count`, `sortBy`, `token`,
`minInteractions` and `offset` are always present (lines 136-142), the
remaining parameters are added only under the source's conditions
(lines 144-156). -/
def ct_get_posts_PARAMS (count : Int) (start_time end_time include_history : Option String)
    (sort_by : String) (types search_term : Option String) (min_interactions offset : Int)
    (api_token listIds : Option String) : List (String × PyVal) :=
  [("count", PyVal.int count), ("sortBy", PyVal.str sort_by),
   ("token", pyOfOptStr api_token), ("minInteractions", PyVal.int min_interactions),
   ("offset", PyVal.int offset)]
  ++ (if truthyStr start_time then [("startDate", pyOfOptStr start_time)] else [])
  ++ (if truthyStr end_time then [("endDate", pyOfOptStr end_time)] else [])
  ++ (if include_history = some "true" then [("includeHistory", pyOfOptStr include_history)] else [])
  ++ (if truthyStr types then [("types", pyOfOptStr types)] else [])
  ++ (if truthyStr search_term then [("searchTerm", pyOfOptStr search_term)] else [])
  ++ (if truthyStr listIds then [("listIds", pyOfOptStr listIds)] else [])

/-! ## Derived states and inputs used by the verification -/

/-- The loop state after a failed-or-empty attempt (before the break
decision): the retry counter is bumped; an empty-but-parsed page also
re-runs the pagination extraction of lines 211-220, an exception leaves the
pagination state untouched. -/
def badState : FetchOutcome → DLState → DLState
  | .err, st => { st with retry_count := st.retry_count + 1 }
  | .ok results, st =>
    { st with
      first_call := if st.first_call ∧ results.status = 200 ∧ results.result.posts.length ≠ 0
        then false else st.first_call,
      next_page_url := locatorOf results,
      more_data := if locatorOf results = none then false
        else match locatorOf results with
          | some _ => true
          | none => st.more_data,
      retry_count := st.retry_count + 1 }

/-- The loop state after a successful non-empty page is processed
(lines 254-276). -/
def goodState (results : Results) (st : DLState) : DLState :=
  { total_posts := st.total_posts + results.result.posts.length,
    query_count := st.query_count + 1,
    retry_count := 0,
    data := st.data ++ results.result.posts,
    first_call := if st.first_call ∧ results.status = 200 ∧ results.result.posts.length ≠ 0
      then false else st.first_call,
    more_data := if locatorOf results = none then false
      else match locatorOf results with
        | some _ => true
        | none => st.more_data,
    next_page_url := locatorOf results }

/-- Transcribes the spec sentence "any prefix segment is absent or
non-mapping" as a predicate on the traversal: the path fails when, walking
the keys left to right, the current value is not a dict or lacks the next
key.  Written from the spec for comparison against `get_dict_val`. -/
def specPathFails : PyVal → List String → Bool
  | _, [] => false
  | PyVal.dict es, k :: ks =>
    (match dictGet k es with
     | some v => specPathFails v ks
     | Option.none => true)
  | _, _ :: _ => true

/-- The keys of the transmitted parameter dict of `ct_get_posts`. -/
def transmittedKeys (count : Int) (start_time end_time include_history : Option String)
    (sort_by : String) (types search_term : Option String) (min_interactions offset : Int)
    (api_token listIds : Option String) : List String :=
  (ct_get_posts_PARAMS count start_time end_time include_history sort_by types search_term
    min_interactions offset api_token listIds).map Prod.fst

/-- A record carrying a `date`, for concrete traces. -/
def onePost : Post := { pid := 1, date := some "2024-01-15 10:30:00" }

/-- A status-200 page with one record and no pagination object. -/
def onePostPage : Results :=
  { status := 200, result := { posts := [onePost], pagination := none } }

/-- A status-200 page with zero records and no pagination object. -/
def emptyPage : Results :=
  { status := 200, result := { posts := [], pagination := none } }

/-- A status-200 page with one record whose `nextPage` key is present but
holds the empty string. -/
def emptyLocatorPage : Results :=
  { status := 200,
    result := { posts := [onePost], pagination := some { nextPage := some "" } } }

/-- A record used in the budget scenario. -/
def p50 : Post := { pid := 0, date := some "2021-01-01 00:00:00" }

/-- A status-200 page with 50 records and a `nextPage` locator. -/
def page50 : Results :=
  { status := 200,
    result := { posts := List.replicate 50 p50,
                pagination := some { nextPage := some "nexturl" } } }

/-- The loop state after the budget scenario of C6. -/
def budgetFinal : DLState :=
  { total_posts := 100, query_count := 2, retry_count := 0,
    data := List.replicate 100 p50, first_call := false, more_data := true,
    next_page_url := some "nexturl" }

/-- Whether an attempt reaches the `query_count` increment at line 274: it
must yield a parsed page with at least one record whose boundary records
carry their `date` fields (otherwise line 258 or 259 raises first). -/
def countsTowardBudget : FetchOutcome → Bool
  | .err => false
  | .ok results => !results.result.posts.isEmpty && hasDates results.result.posts

/-- A status-200 page with one record lacking its `date` field. -/
def datelessPage : Results :=
  { status := 200,
    result := { posts := [{ pid := 2, date := none }], pagination := none } }

theorem step_bad (o : FetchOutcome) (st : DLState) (mq : Nat) (h : isBad o = true) :
    step o st mq = if max_retries ≤ st.retry_count + 1
      then StepRes.brk (badState o st) else StepRes.cont (badState o st) := by
  cases o with
  | err =>
    simp only [step, badState, max_retries]
    exact if_congr (by omega) rfl rfl
  | ok results =>
    have hp : results.result.posts = [] := by simpa [isBad] using h
    simp only [step, badState, hp, List.length_nil, ne_eq, not_true_eq_false, and_false,
      if_false, ite_false, max_retries, if_true, ite_true]
    exact if_congr (by omega) rfl rfl

theorem step_good (results : Results) (st : DLState) (mq : Nat)
    (hne : results.result.posts ≠ []) (hd : hasDates results.result.posts = true) :
    step (.ok results) st mq =
      if mq ≤ st.query_count + 1 then StepRes.brk (goodState results st)
      else StepRes.cont (goodState results st) := by
  have hl : results.result.posts.length ≠ 0 := fun h0 => hne (List.length_eq_zero.mp h0)
  simp only [step, goodState, if_neg hl, hd, if_pos rfl]
  rfl

theorem loop_done (mq : Nat) (env : List FetchOutcome) (st : DLState)
    (h1 : st.first_call = false) (h2 : st.more_data = false) :
    download_posts_loop mq env st = .finished st := by
  cases env <;> simp [download_posts_loop, h1, h2]

theorem loop_cons_entered (mq : Nat) (o : FetchOutcome) (rest : List FetchOutcome)
    (st : DLState) (h : st.first_call || st.more_data) :
    download_posts_loop mq (o :: rest) st =
      match step o st mq with
      | .cont st1 => download_posts_loop mq rest st1
      | .brk st1 => .finished st1
      | .raise st1 => .raised st1 := by
  simp [download_posts_loop, h]

theorem badState_data (o : FetchOutcome) (st : DLState) :
    (badState o st).data = st.data := by cases o <;> rfl

theorem badState_query (o : FetchOutcome) (st : DLState) :
    (badState o st).query_count = st.query_count := by cases o <;> rfl

theorem badState_first (o : FetchOutcome) (st : DLState) (h : isBad o = true) :
    (badState o st).first_call = st.first_call := by
  cases o with
  | err => rfl
  | ok results =>
    have hp : results.result.posts = [] := by simpa [isBad] using h
    simp [badState, hp]

theorem step_raise (results : Results) (st : DLState) (mq : Nat)
    (hne : results.result.posts ≠ []) (hd : hasDates results.result.posts = false) :
    ∃ st2, step (FetchOutcome.ok results) st mq = StepRes.raise st2
      ∧ st2.query_count = st.query_count ∧ st2.data = st.data := by
  have hl : results.result.posts.length ≠ 0 := fun h0 => hne (List.length_eq_zero.mp h0)
  simp only [step, if_neg hl]
  rw [if_neg (by simp [hd])]
  exact ⟨_, rfl, rfl, rfl⟩

theorem step_shape (o : FetchOutcome) (st : DLState) (mq : Nat) :
    (∃ st2, step o st mq = .cont st2
      ∧ (st2.query_count = st.query_count
        ∨ (st2.query_count = st.query_count + 1 ∧ st2.query_count < mq)))
    ∨ (∃ st2, step o st mq = .brk st2 ∧ st2.query_count ≤ st.query_count + 1)
    ∨ (∃ st2, step o st mq = .raise st2 ∧ st2.query_count = st.query_count) := by
  cases o with
  | err =>
    simp only [step]
    split
    · exact Or.inr (Or.inl ⟨_, rfl, Nat.le_succ _⟩)
    · exact Or.inl ⟨_, rfl, Or.inl rfl⟩
  | ok results =>
    simp only [step]
    split
    · split
      · exact Or.inr (Or.inl ⟨_, rfl, Nat.le_succ _⟩)
      · exact Or.inl ⟨_, rfl, Or.inl rfl⟩
    · split
      · split
        · exact Or.inr (Or.inl ⟨_, rfl, Nat.le_refl _⟩)
        · next hlt => exact Or.inl ⟨_, rfl, Or.inr ⟨rfl, not_le.mp hlt⟩⟩
      · exact Or.inr (Or.inr ⟨_, rfl, rfl⟩)

theorem loop_budget (env : List FetchOutcome) :
    ∀ (mq : Nat) (st st1 : DLState), st.query_count < mq →
    download_posts_loop mq env st = .finished st1 → st1.query_count ≤ mq := by
  induction env with
  | nil =>
    intro mq st st1 hlt heq
    simp only [download_posts_loop] at heq
    split at heq
    · cases heq
    · cases heq; omega
  | cons a rest ih =>
    intro mq st st1 hlt heq
    by_cases hcond : (st.first_call || st.more_data) = true
    · rw [loop_cons_entered mq a rest st hcond] at heq
      rcases step_shape a st mq with ⟨st2, hs, hq⟩ | ⟨st2, hs, hq⟩ | ⟨st2, hs, hq⟩
      · rw [hs] at heq
        refine ih mq st2 st1 ?_ heq
        rcases hq with h | ⟨h1, h2⟩ <;> omega
      · rw [hs] at heq
        cases heq
        omega
      · rw [hs] at heq
        cases heq
    · simp only [Bool.or_eq_true, not_or, Bool.not_eq_true] at hcond
      rw [loop_done mq (a :: rest) st hcond.1 hcond.2] at heq
      cases heq
      omega

theorem step_noLocator_more (results : Results) (st : DLState) (mq : Nat)
    (hnl : noLocator results = true) :
    ((step (.ok results) st mq).state).more_data = false := by
  have hloc : locatorOf results = none := by
    simpa [noLocator, Option.isNone_iff_eq_none] using hnl
  simp only [step, hloc]
  split
  · split <;> rfl
  · split
    · split <;> rfl
    · rfl

theorem loop_good_noLocator (env : List FetchOutcome) (mq : Nat) (st : DLState)
    (results : Results)
    (hnl : noLocator results = true)
    (hd : hasDates results.result.posts = true)
    (hfc : st.first_call = true → results.status = 200 ∧ results.result.posts ≠ [])
    (hent : st.first_call = true ∨ st.more_data = true) :
    ∃ st1, download_posts_loop mq (.ok results :: env) st = .finished st1
      ∧ st1.data = st.data ++ results.result.posts ∧ st1.more_data = false := by
  have hloc : locatorOf results = none := by
    simpa [noLocator, Option.isNone_iff_eq_none] using hnl
  have hcond : (st.first_call || st.more_data) = true := by
    rcases hent with h | h <;> simp [h]
  rw [loop_cons_entered mq _ env st hcond]
  by_cases hne : results.result.posts = []
  · have hfcf : st.first_call = false := by
      rcases Bool.eq_false_or_eq_true st.first_call with h | h
      · exact absurd hne (hfc h).2
      · exact h
    have hbad : isBad (FetchOutcome.ok results) = true := by simp [isBad, hne]
    rw [step_bad _ st mq hbad]
    have hmd : (badState (FetchOutcome.ok results) st).more_data = false := by
      simp [badState, hloc]
    have hfc1 : (badState (FetchOutcome.ok results) st).first_call = false := by
      rw [badState_first _ _ hbad]; exact hfcf
    have hdata : (badState (FetchOutcome.ok results) st).data
        = st.data ++ results.result.posts := by
      rw [badState_data, hne, List.append_nil]
    by_cases hbr : max_retries ≤ st.retry_count + 1
    · rw [if_pos hbr]
      exact ⟨_, rfl, hdata, hmd⟩
    · rw [if_neg hbr]
      refine ⟨_, ?_, hdata, hmd⟩
      exact loop_done mq env _ hfc1 hmd
  · rw [step_good results st mq hne hd]
    have hmd : (goodState results st).more_data = false := by
      simp [goodState, hloc]
    have hfc1 : (goodState results st).first_call = false := by
      rcases Bool.eq_false_or_eq_true st.first_call with h | h
      swap
      · simp [goodState, h]
      · have h200 := hfc h
        have hl : results.result.posts.length ≠ 0 :=
          fun h0 => h200.2 (List.length_eq_zero.mp h0)
        simp [goodState, h, h200.1, hl]
    have hdata : (goodState results st).data = st.data ++ results.result.posts := rfl
    by_cases hbr : mq ≤ st.query_count + 1
    · rw [if_pos hbr]
      exact ⟨_, rfl, hdata, hmd⟩
    · rw [if_neg hbr]
      refine ⟨_, ?_, hdata, hmd⟩
      exact loop_done mq env _ hfc1 hmd

/-! ## The claims -/

/-- Claim C1, counterexample.  The claim says that after every fetched page
with no extractable next-page locator the loop terminates, whether the page
contains records or not, and that a present-but-empty locator counts as
absent.  Both parts fail: (1) a zero-record status-200 first page with no
pagination object sends the loop through the retry branch, so with ample
budget it demands a further attempt (`outOfFuel`) instead of finishing; (2)
a page whose `nextPage` key holds the empty string leaves `more_data`
true. -/
theorem C1_counterexample :
    download_posts [FetchOutcome.ok emptyPage] 7
      = LoopResult.outOfFuel
        { total_posts := 0, query_count := 0, retry_count := 1, data := [],
          first_call := true, more_data := false, next_page_url := none }
    ∧ ((step (FetchOutcome.ok emptyLocatorPage) initState 5).state).more_data = true :=
  ⟨rfl, rfl⟩

/-- Claim C1, amended: for every fetched page from which no next-page
locator key can be extracted, the loop sets `more_data` to `false`; and the
loop terminates right after processing that page, regardless of the
remaining call budget, provided the page's records carry their `date`
fields and the page either arrives after the first successful call or is a
status-200 page with at least one record.  (A zero-record locator-less page
on a still-first call is retried instead, and a present-but-empty `nextPage`
string counts as a locator.) -/
theorem C1_no_locator_stops_pagination :
    (∀ (st : DLState) (mq : Nat) (results : Results), noLocator results = true →
      ((step (FetchOutcome.ok results) st mq).state).more_data = false)
    ∧ (∀ (env : List FetchOutcome) (mq : Nat) (st : DLState) (results : Results),
      noLocator results = true →
      hasDates results.result.posts = true →
      (st.first_call = true → results.status = 200 ∧ results.result.posts ≠ []) →
      (st.first_call = true ∨ st.more_data = true) →
      ∃ st1, download_posts_loop mq (FetchOutcome.ok results :: env) st = .finished st1
        ∧ st1.data = st.data ++ results.result.posts ∧ st1.more_data = false) :=
  ⟨fun st mq results hnl => step_noLocator_more results st mq hnl,
   fun env mq st results hnl hd hfc hent => loop_good_noLocator env mq st results hnl hd hfc hent⟩

/-- Witness for C1: both conjuncts at a concrete status-200 one-record page
without pagination, started from the initial loop state. -/
theorem C1_witness :
    ((step (FetchOutcome.ok onePostPage) initState 3).state).more_data = false
    ∧ ∃ st1, download_posts_loop 3 [FetchOutcome.ok onePostPage] initState = .finished st1
        ∧ st1.data = initState.data ++ onePostPage.result.posts ∧ st1.more_data = false :=
  ⟨C1_no_locator_stops_pagination.1 initState 3 onePostPage (by decide),
   C1_no_locator_stops_pagination.2 [] 3 initState onePostPage (by decide) (by decide)
     (fun _ => ⟨rfl, by decide⟩) (Or.inl rfl)⟩

/-- Claim C4, counterexample.  The claim says `query_count` increases by
exactly 1 for every successful page containing at least one record.  A
status-200 page with one record that lacks its `date` field is such a page,
but the reads `posts[0]["date"]`/`posts[-1]["date"]` (lines 258-259) raise
`KeyError` outside the `try` block before the increment at line 274:
`download_posts` aborts with the exception and `query_count` stays 0. -/
theorem C4_counterexample :
    download_posts [FetchOutcome.ok datelessPage] 5
      = LoopResult.raised
        { total_posts := 0, query_count := 0, retry_count := 0, data := [],
          first_call := false, more_data := false, next_page_url := none } := rfl

/-- Claim C4, amended: a successful page with at least one record whose
boundary records carry their `date` fields increases `query_count` by
exactly 1; no failed-or-empty attempt ever changes `query_count`; and a
successful non-empty page whose first or last record lacks `date` aborts
the call with `KeyError` before the increment, also leaving `query_count`
unchanged. -/
theorem C4_query_count_per_successful_page :
    ∀ (st : DLState) (mq : Nat),
      (∀ results : Results, results.result.posts ≠ [] →
        hasDates results.result.posts = true →
        ((step (FetchOutcome.ok results) st mq).state).query_count = st.query_count + 1)
      ∧ (∀ o : FetchOutcome, isBad o = true →
        ((step o st mq).state).query_count = st.query_count)
      ∧ (∀ results : Results, results.result.posts ≠ [] →
        hasDates results.result.posts = false →
        ∃ st2, step (FetchOutcome.ok results) st mq = StepRes.raise st2
          ∧ st2.query_count = st.query_count) := by
  intro st mq
  refine ⟨?_, ?_, ?_⟩
  · intro results hne hd
    rw [step_good results st mq hne hd]
    split <;> rfl
  · intro o hbad
    rw [step_bad o st mq hbad]
    split <;> exact badState_query o st
  · intro results hne hd
    obtain ⟨st2, hs, hq, _⟩ := step_raise results st mq hne hd
    exact ⟨st2, hs, hq⟩

/-- Witness for C4: a one-record page increments the counter, a transport
error leaves it unchanged, a dateless one-record page raises with the
counter unchanged. -/
theorem C4_witness :
    ((step (FetchOutcome.ok onePostPage) initState 3).state).query_count
      = initState.query_count + 1
    ∧ ((step FetchOutcome.err initState 3).state).query_count = initState.query_count
    ∧ ∃ st2, step (FetchOutcome.ok datelessPage) initState 3 = StepRes.raise st2
        ∧ st2.query_count = initState.query_count :=
  ⟨(C4_query_count_per_successful_page initState 3).1 onePostPage (by decide) (by decide),
   (C4_query_count_per_successful_page initState 3).2.1 FetchOutcome.err rfl,
   (C4_query_count_per_successful_page initState 3).2.2 datelessPage (by decide) (by decide)⟩

/-- Claim C5, counterexample.  The claim says `query_count` increments once
per attempted call, success or failure, so that it ends up equal to the
number of attempts.  Ten consecutive failed attempts leave
`query_count = 0`, not 10. -/
theorem C5_counterexample :
    download_posts (List.replicate 10 FetchOutcome.err) 5
      = LoopResult.finished
        { total_posts := 0, query_count := 0, retry_count := 10, data := [],
          first_call := true, more_data := false, next_page_url := none } := rfl

/-- Claim C5, amended: `query_count` counts successfully processed
non-empty pages only — an attempt increments it by exactly 1 exactly when
it yields a parsed page with at least one record whose boundary records
carry their `date` fields, and leaves it unchanged in every other case:
transport errors, zero-record pages, and non-empty pages whose first or
last record lacks `date` (those abort with `KeyError` before the increment
at line 274).  So after the loop `query_count` equals the number of
successfully processed non-empty pages, not the number of attempts. -/
theorem C5_query_count_successful_only :
    ∀ (o : FetchOutcome) (st : DLState) (mq : Nat),
      ((step o st mq).state).query_count
        = st.query_count + (if countsTowardBudget o then 1 else 0) := by
  intro o st mq
  by_cases hc : countsTowardBudget o = true
  · rw [if_pos hc]
    cases o with
    | err => simp [countsTowardBudget] at hc
    | ok results =>
      simp only [countsTowardBudget, Bool.and_eq_true, Bool.not_eq_true'] at hc
      have hne : results.result.posts ≠ [] := by
        intro h
        rw [h] at hc
        simp at hc
      rw [step_good results st mq hne hc.2]
      split <;> rfl
  · rw [if_neg hc, Nat.add_zero]
    by_cases hbad : isBad o = true
    · rw [step_bad o st mq hbad]
      split <;> exact badState_query o st
    · cases o with
      | err => exact absurd rfl hbad
      | ok results =>
        have hne : results.result.posts ≠ [] := fun h => hbad (by simp [isBad, h])
        have hd : hasDates results.result.posts = false := by
          rcases Bool.eq_false_or_eq_true (hasDates results.result.posts) with h | h
          · exfalso
            apply hc
            simp only [countsTowardBudget, Bool.and_eq_true, Bool.not_eq_true']
            exact ⟨by simpa [List.isEmpty_iff] using hne, h⟩
          · exact h
        obtain ⟨st2, hstep, hq, _⟩ := step_raise results st mq hne hd
        rw [hstep]
        exact hq

/-- Witness for C5: a dated one-record page counts, a dateless one-record
page does not. -/
theorem C5_witness :
    ((step (FetchOutcome.ok onePostPage) initState 3).state).query_count
      = initState.query_count + (if countsTowardBudget (FetchOutcome.ok onePostPage) then 1 else 0)
    ∧ ((step (FetchOutcome.ok datelessPage) initState 3).state).query_count
      = initState.query_count
        + (if countsTowardBudget (FetchOutcome.ok datelessPage) then 1 else 0) :=
  ⟨C5_query_count_successful_only (FetchOutcome.ok onePostPage) initState 3,
   C5_query_count_successful_only (FetchOutcome.ok datelessPage) initState 3⟩

/-- Claim C6: with a positive budget, any normally-returning run of
`download_posts` ends with `query_count ≤ max_queries`; and in the concrete
scenario — budget 2, every call delivering 50 records plus a `nextPage`
locator — the loop stops after exactly 2 calls with exactly 100 accumulated
records, `more_data` still true. -/
theorem C6_call_budget :
    (∀ (env : List FetchOutcome) (mq : Nat) (st1 : DLState), 0 < mq →
      download_posts env mq = .finished st1 → st1.query_count ≤ mq)
    ∧ download_posts (List.replicate 3 (FetchOutcome.ok page50)) 2
      = LoopResult.finished budgetFinal := by
  constructor
  · intro env mq st1 hpos heq
    refine loop_budget env mq initState st1 ?_ heq
    simpa [initState] using hpos
  · decide

/-- Witness for C6: the budget bound applied to the scenario run itself. -/
theorem C6_witness : budgetFinal.query_count ≤ 2 :=
  C6_call_budget.1 (List.replicate 3 (FetchOutcome.ok page50)) 2 budgetFinal
    (by decide) C6_call_budget.2

/-- Claim C7, counterexample.  The claim says both page-fetch operations
raise on any non-2xx HTTP status.  The follow-up fetch performs no status
check at all: a 404 response with a JSON body is returned normally; and the
first-page fetch raises only for 4xx/5xx: a 304 response with a JSON body
is returned normally. -/
theorem C7_counterexample :
    next_page_fetch (some { status_code := 404, body := some emptyPage })
      = FetchResult.returns emptyPage
    ∧ ct_get_posts (some { status_code := 304, body := some emptyPage })
      = FetchResult.returns emptyPage :=
  ⟨rfl, rfl⟩

/-- Claim C7, amended: `ct_get_posts` raises exactly on network failure, on
a 4xx/5xx status (via `raise_for_status` inside the error printout), and on
an unparseable body; any other status with a parseable body — including
empty-but-valid 200 responses — is returned, zero records being a data
condition.  The follow-up fetch inside `download_posts` performs no status
check: it raises only on network failure or an unparseable body. -/
theorem C7_transport_errors :
    (ct_get_posts none = FetchResult.raises)
    ∧ (∀ (code : Nat) (body : Option Results), 400 ≤ code → code < 600 →
        ct_get_posts (some { status_code := code, body := body }) = FetchResult.raises)
    ∧ (∀ (code : Nat) (results : Results), ¬(400 ≤ code ∧ code < 600) →
        ct_get_posts (some { status_code := code, body := some results })
          = FetchResult.returns results)
    ∧ (∀ (code : Nat), ct_get_posts (some { status_code := code, body := none })
        = FetchResult.raises)
    ∧ (next_page_fetch none = FetchResult.raises)
    ∧ (∀ (code : Nat), next_page_fetch (some { status_code := code, body := none })
        = FetchResult.raises)
    ∧ (∀ (code : Nat) (results : Results),
        next_page_fetch (some { status_code := code, body := some results })
          = FetchResult.returns results) := by
  refine ⟨rfl, ?_, ?_, ?_, rfl, fun code => rfl, fun code results => rfl⟩
  · intro code body h1 h2
    have hne : code ≠ 200 := by omega
    cases body <;> simp [ct_get_posts, raise_for_status_raises, hne, h1, h2]
  · intro code results hno
    by_cases h200 : code = 200
    · subst h200
      simp [ct_get_posts]
    · simp [ct_get_posts, raise_for_status_raises, h200, hno]
  · intro code
    by_cases h200 : code = 200
    · subst h200
      simp [ct_get_posts]
    · by_cases hr : 400 ≤ code ∧ code < 600
      · simp [ct_get_posts, raise_for_status_raises, h200, hr]
      · simp [ct_get_posts, raise_for_status_raises, h200, hr]

/-- Witness for C7: the status-dependent conjuncts at concrete codes. -/
theorem C7_witness :
    ct_get_posts (some { status_code := 404, body := none }) = FetchResult.raises
    ∧ ct_get_posts (some { status_code := 200, body := some emptyPage })
      = FetchResult.returns emptyPage
    ∧ next_page_fetch (some { status_code := 500, body := none }) = FetchResult.raises :=
  ⟨C7_transport_errors.2.1 404 none (by decide) (by decide),
   C7_transport_errors.2.2.1 200 emptyPage (by decide),
   C7_transport_errors.2.2.2.2.2.1 500⟩

/-- Claim C8, counterexample.  The claim says a parameter left at its
default value is not transmitted.  With every parameter at its default and
only the token supplied, the transmitted keys are `count`, `sortBy`,
`token`, `minInteractions` and `offset` — four defaulted parameters
(`count = 10`, `sort_by = "date"`, `min_interactions = 0`, `offset = 0`)
are transmitted alongside the token. -/
theorem C8_counterexample :
    transmittedKeys 10 Option.none Option.none Option.none "date" Option.none Option.none
        0 0 (some "TOKEN") Option.none
      = ["count", "sortBy", "token", "minInteractions", "offset"] := rfl

/-- Claim C8, amended: `count`, `sortBy`, `token`, `minInteractions` and
`offset` are transmitted on every call, whatever their values; `startDate`,
`endDate`, `types`, `searchTerm` and `listIds` are transmitted exactly when
the caller supplies a truthy (non-absent, non-empty) value, and
`includeHistory` exactly when `include_history == "true"`. -/
theorem C8_transmitted_params :
    ∀ (count : Int) (start_time end_time include_history : Option String) (sort_by : String)
      (types search_term : Option String) (min_interactions offset : Int)
      (api_token listIds : Option String),
      "count" ∈ transmittedKeys count start_time end_time include_history sort_by types
          search_term min_interactions offset api_token listIds
      ∧ "sortBy" ∈ transmittedKeys count start_time end_time include_history sort_by types
          search_term min_interactions offset api_token listIds
      ∧ "token" ∈ transmittedKeys count start_time end_time include_history sort_by types
          search_term min_interactions offset api_token listIds
      ∧ "minInteractions" ∈ transmittedKeys count start_time end_time include_history sort_by
          types search_term min_interactions offset api_token listIds
      ∧ "offset" ∈ transmittedKeys count start_time end_time include_history sort_by types
          search_term min_interactions offset api_token listIds
      ∧ ("startDate" ∈ transmittedKeys count start_time end_time include_history sort_by types
          search_term min_interactions offset api_token listIds ↔ truthyStr start_time = true)
      ∧ ("endDate" ∈ transmittedKeys count start_time end_time include_history sort_by types
          search_term min_interactions offset api_token listIds ↔ truthyStr end_time = true)
      ∧ ("includeHistory" ∈ transmittedKeys count start_time end_time include_history sort_by
          types search_term min_interactions offset api_token listIds
          ↔ include_history = some "true")
      ∧ ("types" ∈ transmittedKeys count start_time end_time include_history sort_by types
          search_term min_interactions offset api_token listIds ↔ truthyStr types = true)
      ∧ ("searchTerm" ∈ transmittedKeys count start_time end_time include_history sort_by
          types search_term min_interactions offset api_token listIds
          ↔ truthyStr search_term = true)
      ∧ ("listIds" ∈ transmittedKeys count start_time end_time include_history sort_by types
          search_term min_interactions offset api_token listIds ↔ truthyStr listIds = true) := by
  intro count start_time end_time include_history sort_by types search_term
    min_interactions offset api_token listIds
  by_cases h1 : truthyStr start_time = true <;>
    by_cases h2 : truthyStr end_time = true <;>
    by_cases h3 : include_history = some "true" <;>
    by_cases h4 : truthyStr types = true <;>
    by_cases h5 : truthyStr search_term = true <;>
    by_cases h6 : truthyStr listIds = true <;>
    simp [transmittedKeys, ct_get_posts_PARAMS, h1, h2, h3, h4, h5, h6]

/-- Witness for C8: all defaults except the token. -/
theorem C8_witness :
    "count" ∈ transmittedKeys 10 Option.none Option.none Option.none "date" Option.none
        Option.none 0 0 (some "TOKEN") Option.none
    ∧ "sortBy" ∈ transmittedKeys 10 Option.none Option.none Option.none "date" Option.none
        Option.none 0 0 (some "TOKEN") Option.none
    ∧ "token" ∈ transmittedKeys 10 Option.none Option.none Option.none "date" Option.none
        Option.none 0 0 (some "TOKEN") Option.none
    ∧ "minInteractions" ∈ transmittedKeys 10 Option.none Option.none Option.none "date"
        Option.none Option.none 0 0 (some "TOKEN") Option.none
    ∧ "offset" ∈ transmittedKeys 10 Option.none Option.none Option.none "date" Option.none
        Option.none 0 0 (some "TOKEN") Option.none
    ∧ ("startDate" ∈ transmittedKeys 10 Option.none Option.none Option.none "date" Option.none
        Option.none 0 0 (some "TOKEN") Option.none ↔ truthyStr Option.none = true)
    ∧ ("endDate" ∈ transmittedKeys 10 Option.none Option.none Option.none "date" Option.none
        Option.none 0 0 (some "TOKEN") Option.none ↔ truthyStr Option.none = true)
    ∧ ("includeHistory" ∈ transmittedKeys 10 Option.none Option.none Option.none "date"
        Option.none Option.none 0 0 (some "TOKEN") Option.none
        ↔ (Option.none : Option String) = some "true")
    ∧ ("types" ∈ transmittedKeys 10 Option.none Option.none Option.none "date" Option.none
        Option.none 0 0 (some "TOKEN") Option.none ↔ truthyStr Option.none = true)
    ∧ ("searchTerm" ∈ transmittedKeys 10 Option.none Option.none Option.none "date"
        Option.none Option.none 0 0 (some "TOKEN") Option.none ↔ truthyStr Option.none = true)
    ∧ ("listIds" ∈ transmittedKeys 10 Option.none Option.none Option.none "date" Option.none
        Option.none 0 0 (some "TOKEN") Option.none ↔ truthyStr Option.none = true) :=
  C8_transmitted_params 10 Option.none Option.none Option.none "date" Option.none Option.none
    0 0 (some "TOKEN") Option.none

theorem gdv_loop_pathFails (ks : List String) :
    ∀ v : PyVal, specPathFails v ks = true → gdv_loop v ks = PyVal.none := by
  induction ks with
  | nil =>
    intro v h
    simp [specPathFails] at h
  | cons k ks ih =>
    intro v h
    cases v with
    | dict es =>
      cases hg : dictGet k es with
      | none => simp [gdv_loop, hg]
      | some v1 =>
        simp only [specPathFails, hg] at h
        simp [gdv_loop, hg, ih v1 h]
    | list l => simp [gdv_loop]
    | str s => simp [gdv_loop]
    | int n => simp [gdv_loop]
    | none => simp [gdv_loop]

/-- Claim C9, counterexample.  The claim says `get_dict_val` never raises
for any input.  Its opening guard raises `TypeError` when the traversal
root is itself not a dict (documented in its own docstring's `Raises`
section). -/
theorem C9_counterexample :
    get_dict_val (PyVal.int 5) ["a"] = Except.error "TypeError" := rfl

/-- Claim C9, amended: on dict inputs, `get_dict_val` (and `get_value`,
which delegates to it) never raises, and whenever the traversal hits an
absent key or a non-mapping value partway, the result is `None`; on a
non-dict input the opening guard raises `TypeError`. -/
theorem C9_safe_nested_lookup :
    (∀ (es : List (String × PyVal)) (ks : List String) (e : String),
      get_dict_val (PyVal.dict es) ks ≠ Except.error e)
    ∧ (∀ (es : List (String × PyVal)) (ks : List String),
      specPathFails (PyVal.dict es) ks = true →
      get_dict_val (PyVal.dict es) ks = Except.ok PyVal.none)
    ∧ (∀ (es : List (String × PyVal)) (ks : List String),
      get_value (PyVal.dict es) ks = get_dict_val (PyVal.dict es) ks)
    ∧ (∀ (d : PyVal) (ks : List String), isDict d = false →
      get_dict_val d ks = Except.error "TypeError") := by
  refine ⟨?_, ?_, fun es ks => rfl, ?_⟩
  · intro es ks e
    simp [get_dict_val, isDict]
  · intro es ks h
    rw [get_dict_val, if_pos (by rfl), gdv_loop_pathFails ks (PyVal.dict es) h]
  · intro d ks h
    simp [get_dict_val, h]

/-- Witness for C9: a lookup of a missing key returns `None` without
raising; a non-dict root raises. -/
theorem C9_witness :
    get_dict_val (PyVal.dict []) ["a"] ≠ Except.error "KeyError"
    ∧ get_dict_val (PyVal.dict []) ["a"] = Except.ok PyVal.none
    ∧ get_value (PyVal.dict []) ["a"] = get_dict_val (PyVal.dict []) ["a"]
    ∧ get_dict_val (PyVal.int 0) [] = Except.error "TypeError" :=
  ⟨C9_safe_nested_lookup.1 [] ["a"] "KeyError",
   C9_safe_nested_lookup.2.1 [] ["a"] rfl,
   C9_safe_nested_lookup.2.2.1 [] ["a"],
   C9_safe_nested_lookup.2.2.2 (PyVal.int 0) [] rfl⟩

/-- Claim C10, counterexample.  The claim says every `FbIgPost` accessor
yields an absent result instead of raising when a field it reads is
missing, including fields inside list elements.  A present `media` list
whose item lacks `url`, and a present `expandedLinks` list whose item lacks
`expanded`, each raise `KeyError`. -/
theorem C10_counterexample :
    get_media (PyVal.dict [("media", PyVal.list [PyVal.dict []])]) = Except.error "KeyError"
    ∧ get_URLs (PyVal.dict [("expandedLinks", PyVal.list [PyVal.dict []])])
      = Except.error "KeyError" :=
  ⟨rfl, rfl⟩

/-- Claim C10, amended: on dict payloads the accessors tolerate *top-level*
missing fields — `get_post_ID` and `get_user_ID` return `None` and never
raise, `get_text` returns the empty string (or empty dict) when all four
text fields are absent, and `get_URLs`/`get_media` return `[]` when their
field is absent — but a present `expandedLinks`/`media` item lacking
`expanded` or `url`/`type` raises `KeyError`. -/
theorem C10_missing_fields_yield_absent :
    (∀ (es : List (String × PyVal)), dictGet "id" es = Option.none →
      get_post_ID (PyVal.dict es) = Except.ok Option.none)
    ∧ (∀ (es : List (String × PyVal)) (e : String),
      get_post_ID (PyVal.dict es) ≠ Except.error e)
    ∧ (∀ (es : List (String × PyVal)), dictGet "account" es = Option.none →
      get_user_ID (PyVal.dict es) = Except.ok Option.none)
    ∧ (∀ (es : List (String × PyVal)) (e : String),
      get_user_ID (PyVal.dict es) ≠ Except.error e)
    ∧ (∀ (cleaner : PyVal → Except String PyVal) (es : List (String × PyVal)),
      (∀ f ∈ ["message", "title", "description", "imageText"], dictGet f es = Option.none) →
      get_text cleaner (PyVal.dict es) false false = Except.ok (PyVal.str "")
        ∧ get_text cleaner (PyVal.dict es) false true = Except.ok (PyVal.dict []))
    ∧ (∀ (es : List (String × PyVal)), dictGet "expandedLinks" es = Option.none →
      get_URLs (PyVal.dict es) = Except.ok [])
    ∧ (∀ (es : List (String × PyVal)), dictGet "media" es = Option.none →
      get_media (PyVal.dict es) = Except.ok []) := by
  refine ⟨?_, ?_, ?_, ?_, ?_, ?_, ?_⟩
  · intro es h
    simp [get_post_ID, get_value, get_dict_val, isDict, gdv_loop, h]
  · intro es e
    cases hw : gdv_loop (PyVal.dict es) ["id"] <;>
      simp [get_post_ID, get_value, get_dict_val, isDict, hw]
  · intro es h
    simp [get_user_ID, get_value, get_dict_val, isDict, gdv_loop, h]
  · intro es e
    cases hw : gdv_loop (PyVal.dict es) ["account", "id"] <;>
      simp [get_user_ID, get_value, get_dict_val, isDict, hw]
  · intro cleaner es h
    have hm := h "message" (by simp)
    have ht := h "title" (by simp)
    have hd := h "description" (by simp)
    have hi := h "imageText" (by simp)
    constructor <;>
      simp [get_text, collectTextFields, get_value, get_dict_val, isDict, gdv_loop,
        hm, ht, hd, hi, joinValues, String.intercalate]
  · intro es h
    simp [get_URLs, get_value, get_dict_val, isDict, gdv_loop, h]
  · intro es h
    simp [get_media, get_value, get_dict_val, isDict, gdv_loop, h]

/-- Witness for C10: each conjunct at a concrete payload. -/
theorem C10_witness :
    get_post_ID (PyVal.dict []) = Except.ok Option.none
    ∧ get_post_ID (PyVal.dict [("id", PyVal.int 7)]) ≠ Except.error "KeyError"
    ∧ get_user_ID (PyVal.dict []) = Except.ok Option.none
    ∧ get_user_ID (PyVal.dict [("account", PyVal.int 3)]) ≠ Except.error "TypeError"
    ∧ (get_text Except.ok (PyVal.dict []) false false = Except.ok (PyVal.str "")
        ∧ get_text Except.ok (PyVal.dict []) false true = Except.ok (PyVal.dict []))
    ∧ get_URLs (PyVal.dict []) = Except.ok []
    ∧ get_media (PyVal.dict []) = Except.ok [] :=
  ⟨C10_missing_fields_yield_absent.1 [] rfl,
   C10_missing_fields_yield_absent.2.1 [("id", PyVal.int 7)] "KeyError",
   C10_missing_fields_yield_absent.2.2.1 [] rfl,
   C10_missing_fields_yield_absent.2.2.2.1 [("account", PyVal.int 3)] "TypeError",
   C10_missing_fields_yield_absent.2.2.2.2.1 Except.ok [] (by intro f hf; cases hf <;> rfl),
   C10_missing_fields_yield_absent.2.2.2.2.2.1 [] rfl,
   C10_missing_fields_yield_absent.2.2.2.2.2.2 [] rfl⟩
